import Mathlib

/-!
# Verification of the wifi-wizard monitoring core

Shallow embedding of the backend of the `wifi-wizard` repository
(`analyze_scan.py`, `agent_core.py`, `compare_scans.py`,
`history_to_series.py`, `agent_server.py`, `agent_scheduler.py`)
together with proofs about the ScoringEngine, the OutageMonitor,
the DeltaEngine, the SeriesBuilder and the RunGuard.

Python floats are modelled as rationals (`ℚ`), Python ints as `ℤ`/`ℕ`,
JSON absence (`None` / missing key) as `Option`.  Python's `round(x, 2)`
(round half to even, to two decimal places) is modelled exactly on `ℚ`.
-/

namespace WifiWizard

/-- Python `int(x)` on a float/rational: truncation toward zero. -/
def pytrunc (q : ℚ) : ℤ := if q < 0 then ⌈q⌉ else ⌊q⌋

/-- Round a rational to the nearest integer, ties to even
(the rounding used by Python's builtin `round`). -/
def roundHalfEven (q : ℚ) : ℤ :=
  let f : ℤ := ⌊q⌋
  let r : ℚ := q - f
  if r < 1/2 then f
  else if 1/2 < r then f + 1
  else if f % 2 = 0 then f else f + 1

/-- Python `round(x, 2)`: two decimal places, ties to even. -/
def pyround2 (q : ℚ) : ℚ := (roundHalfEven (q * 100) : ℚ) / 100

theorem floor_le_roundHalfEven (q : ℚ) : ⌊q⌋ ≤ roundHalfEven q := by
  unfold roundHalfEven
  dsimp only
  split
  · exact le_refl _
  · split
    · omega
    · split <;> omega

/-- An integer lower bound survives `pyround2`. -/
theorem le_pyround2 (z : ℤ) (q : ℚ) (h : (z : ℚ) ≤ q) : (z : ℚ) ≤ pyround2 q := by
  unfold pyround2
  have h100 : ((z * 100 : ℤ) : ℚ) ≤ q * 100 := by push_cast; nlinarith
  have hfl : (z * 100 : ℤ) ≤ ⌊q * 100⌋ := Int.le_floor.mpr h100
  have hrnd : (z * 100 : ℤ) ≤ roundHalfEven (q * 100) :=
    le_trans hfl (floor_le_roundHalfEven _)
  have hc : ((z * 100 : ℤ) : ℚ) ≤ (roundHalfEven (q * 100) : ℚ) := by exact_mod_cast hrnd
  have h2 : ((z * 100 : ℤ) : ℚ) / 100 ≤ (roundHalfEven (q * 100) : ℚ) / 100 :=
    (div_le_div_iff_of_pos_right (by norm_num)).mpr hc
  have hz : (z : ℚ) = ((z * 100 : ℤ) : ℚ) / 100 := by push_cast; ring
  rw [hz]
  exact h2

/-! ## ScoringEngine (`analyze_scan.py`) -/

namespace AnalyzeScan

/-- `parse_channel`: extract the leading decimal digits of the channel
descriptor (the Python code uses `re.match(r"(\d+)", str(ch_str))`). -/
def parse_channel (s : String) : Option Nat :=
  let ds := s.toList.takeWhile Char.isDigit
  if ds.isEmpty then none
  else some (ds.foldl (fun n c => 10 * n + (c.toNat - 48)) 0)

/-- The two Wi-Fi bands used by `band_from_channel` (the Python code uses
the strings `"2.4"` and `"5"` as keys). -/
inductive Band where
  | b24
  | b5
deriving DecidableEq

/-- `band_from_channel`: channels 1–14 are 2.4 GHz, anything else 5 GHz;
an unparsed channel has no band. -/
def band_from_channel : Option Nat → Option Band
  | none => none
  | some ch => if 1 ≤ ch ∧ ch ≤ 14 then some .b24 else some .b5

/-- One entry of the scan's `networks` list.  Only the `channel`
descriptor feeds the analysis; the other JSON keys (ssid, rssi, …)
are carried through untouched by `analyze` and are omitted here. -/
structure Network where
  channel : String
deriving DecidableEq

/-- The `speedtest` object: each field optional, `None`/missing ↦ `none`. -/
structure Speedtest where
  download_mbps : Option ℚ
  upload_mbps : Option ℚ
  ping_ms : Option ℚ
deriving DecidableEq

/-- The JSON document read from `wifi_scan.json`:
`data.get("networks", [])` and `data.get("speedtest", {})`
(a missing or empty `networks` list is the empty list; a missing or
empty `speedtest` object is `none`). -/
structure Scan where
  networks : List Network
  speedtest : Option Speedtest
deriving DecidableEq

/-- `c24` of the source: total number of networks classified into the
2.4 GHz band (the Python code sums the per-channel `Counter`, which
equals this count). -/
def count24 (nets : List Network) : Nat :=
  (nets.filter (fun n => band_from_channel (parse_channel n.channel) = some .b24)).length

/-- `c5` of the source: total number of networks classified into the
5 GHz band. -/
def count5 (nets : List Network) : Nat :=
  (nets.filter (fun n => band_from_channel (parse_channel n.channel) = some .b5)).length

/-- `sp.get("download_mbps", 0) or 0`: a missing (or `None`, or zero)
download value is 0. -/
def downOf (scan : Scan) : ℚ :=
  match scan.speedtest with
  | none => 0
  | some sp => sp.download_mbps.getD 0

/-- `sp.get("upload_mbps", 0) or 0`. -/
def upOf (scan : Scan) : ℚ :=
  match scan.speedtest with
  | none => 0
  | some sp => sp.upload_mbps.getD 0

/-- `sp.get("ping_ms", 0) or 0`. -/
def pingOf (scan : Scan) : ℚ :=
  match scan.speedtest with
  | none => 0
  | some sp => sp.ping_ms.getD 0

/-- The parts of the summary dict built by `analyze` that the claims
are about (the per-channel count dictionaries and the 5 GHz block
grouping of lines 36–53 do not feed the health score and are not
modelled). -/
structure Summary where
  total_networks : Nat
  band_count_24 : Nat
  band_count_5 : Nat
  speedtest : Option Speedtest
  wifi_health_score : ℤ
deriving DecidableEq

/-- `analyze` (lines 16–97 of `analyze_scan.py`): band counts and the
health score, starting at 100 and applying the ordered penalties, then
clamping to `[0, 100]`. -/
def analyze (scan : Scan) : Summary :=
  let nets := scan.networks
  let c24 := count24 nets
  let c5 := count5 nets
  let score0 : ℤ := 100
  let score1 := if c24 ≥ 6 then score0 - 20 else if c24 ≥ 3 then score0 - 10 else score0
  let score2 := if c5 ≥ 8 then score1 - 15 else if c5 ≥ 4 then score1 - 8 else score1
  let down := downOf scan
  let up := upOf scan
  let ping := pingOf scan
  let score3 := if down < 50 then score2 - 15 else score2
  let score4 := if up < 10 then score3 - 10 else score3
  let score5 := if ping > 50 then score4 - 10 else score4
  { total_networks := nets.length
    band_count_24 := c24
    band_count_5 := c5
    speedtest := scan.speedtest
    wifi_health_score := max 0 (min 100 score5) }

/-! Spec-side penalty schedule, written from the spec's wording. -/

/-- Spec: 2.4 GHz network count ≥ 6 → −20; else ≥ 3 → −10; else 0. -/
def penalty24 (c : Nat) : ℤ := if c ≥ 6 then 20 else if c ≥ 3 then 10 else 0

/-- Spec: 5 GHz network count ≥ 8 → −15; else ≥ 4 → −8; else 0. -/
def penalty5 (c : Nat) : ℤ := if c ≥ 8 then 15 else if c ≥ 4 then 8 else 0

/-- Spec: download < 50 Mbps → −15. -/
def penaltyDown (d : ℚ) : ℤ := if d < 50 then 15 else 0

/-- Spec: upload < 10 Mbps → −10. -/
def penaltyUp (u : ℚ) : ℤ := if u < 10 then 10 else 0

/-- Spec: ping > 50 ms → −10. -/
def penaltyPing (p : ℚ) : ℤ := if p > 50 then 10 else 0

/-- Spec: final score clamped to `[0, 100]`. -/
def clamp100 (z : ℤ) : ℤ := max 0 (min 100 z)

/-- A scan with 7 networks on 2.4 GHz channels, 9 on 5 GHz channels,
download 30, upload 5, ping 80 — the worked example of the spec. -/
def exampleScan : Scan :=
  { networks :=
      [⟨"1 (2GHz, 20MHz)"⟩, ⟨"1 (2GHz, 20MHz)"⟩, ⟨"6 (2GHz, 20MHz)"⟩,
       ⟨"6 (2GHz, 20MHz)"⟩, ⟨"11 (2GHz, 20MHz)"⟩, ⟨"11 (2GHz, 20MHz)"⟩,
       ⟨"11 (2GHz, 20MHz)"⟩,
       ⟨"36 (5GHz, 80MHz)"⟩, ⟨"40 (5GHz, 80MHz)"⟩, ⟨"44 (5GHz, 80MHz)"⟩,
       ⟨"48 (5GHz, 80MHz)"⟩, ⟨"149 (5GHz, 80MHz)"⟩, ⟨"153 (5GHz, 80MHz)"⟩,
       ⟨"157 (5GHz, 80MHz)"⟩, ⟨"161 (5GHz, 80MHz)"⟩, ⟨"165 (5GHz, 20MHz)"⟩]
    speedtest := some ⟨some 30, some 5, some 80⟩ }

end AnalyzeScan

/-! ## OutageMonitor (`agent_core.py`) -/

namespace AgentCore

/-- `OUTAGE_START_SEC = 15`: continuous ping fail before counting outage. -/
def OUTAGE_START_SEC : ℚ := 15

/-- `OUTAGE_MIN_DURATION_SEC = 10`: ignore super short blips. -/
def OUTAGE_MIN_DURATION_SEC : ℚ := 10

/-- The mutable fields of `OutageMonitor` that drive the loop.
Timestamps are seconds (`time.time()` floats, modelled as `ℚ`).
`current_outage_start` is `None` or a start time; the Python truthiness
tests `if self.current_outage_start:` / `if not self.current_outage_start:`
treat both `None` and `0.0` as falsy, modelled by `truthyStart`. -/
structure MonitorState where
  current_outage_start : Option ℚ
  last_ok_time : ℚ
  last_wifi_ssid : Option String
deriving DecidableEq

/-- Python truthiness of `self.current_outage_start`:
`None` and `0.0` are falsy, any other float is truthy. -/
def truthyStart : Option ℚ → Bool
  | none => false
  | some q => decide (q ≠ 0)

/-- The two kinds of record `OutageMonitor.loop` appends to
`agent_history.jsonl`.  ISO timestamps are modelled by the underlying
rational time. -/
inductive Event where
  | outage (ts_start ts_end duration_sec : ℚ) (ssid_at_time : Option String)
  | heartbeat (ts : ℚ) (ok : Bool) (ssid : Option String)
deriving DecidableEq

/-- One poll tick of the loop: the probe result (`ping_once`), the
current clock, and the SSID reported by `get_current_ssid_mac`.
A probe-command execution error surfaces as `ok = false`, never as an
exception. -/
structure Tick where
  now : ℚ
  ok : Bool
  ssid : Option String
deriving DecidableEq

/-- One iteration of `OutageMonitor.loop` (lines 78–125 of
`agent_core.py`): returns the successor state and the records appended
during the iteration, in append order.  On success the outage-closing
block runs only when `if self.current_outage_start:` is truthy (a start
of exactly `0.0` is falsy: nothing is appended and the start is *not*
reset to `None`); on failure `if not self.current_outage_start:` likewise
treats a `0.0` start as absent, so it may be overwritten. -/
def step (st : MonitorState) (t : Tick) : MonitorState × List Event :=
  let lastSsid := match t.ssid with
    | some s => some s
    | none => st.last_wifi_ssid
  if t.ok then
    match st.current_outage_start with
    | some start =>
        if start = 0 then
          (⟨some start, t.now, lastSsid⟩, [Event.heartbeat t.now true t.ssid])
        else
          let duration := t.now - start
          let closing :=
            if OUTAGE_MIN_DURATION_SEC ≤ duration then
              [Event.outage start t.now (pyround2 duration) lastSsid]
            else []
          (⟨none, t.now, lastSsid⟩, closing ++ [Event.heartbeat t.now true t.ssid])
    | none =>
        (⟨none, t.now, lastSsid⟩, [Event.heartbeat t.now true t.ssid])
  else
    let st' :=
      if truthyStart st.current_outage_start = false
          ∧ OUTAGE_START_SEC ≤ t.now - st.last_ok_time then
        MonitorState.mk (some t.now) st.last_ok_time lastSsid
      else
        ⟨st.current_outage_start, st.last_ok_time, lastSsid⟩
    (st', [Event.heartbeat t.now false t.ssid])

/-- A run of the poll loop over a list of ticks, collecting every
appended record. -/
def run (st : MonitorState) : List Tick → MonitorState × List Event
  | [] => (st, [])
  | t :: ts =>
      let s1 := step st t
      let s2 := run s1.1 ts
      (s2.1, s1.2 ++ s2.2)

/-- The SSID stored by the tick: the freshly observed one when present,
otherwise the one carried forward. -/
def carriedSsid (st : MonitorState) (t : Tick) : Option String :=
  match t.ssid with
  | some s => some s
  | none => st.last_wifi_ssid

end AgentCore

/-! ## DeltaEngine (`compare_scans.py`) -/

namespace CompareScans

/-- A scan document as read from a `history/wifi_scan_*.json` file:
an optional `networks` list and an optional `speedtest` object
(`scan.get("networks")` / `scan.get("speedtest")`).  A Python-falsy scan
(`None`, or the empty dict) is modelled as `Option.none` at use sites. -/
structure ScanDoc where
  networks : Option (List AnalyzeScan.Network)
  speedtest : Option AnalyzeScan.Speedtest
deriving DecidableEq

/-- `_get_speedtest_fields`: extract `(download_mbps, upload_mbps, ping_ms)`
from a scan, each field falling back to 0 when the `speedtest` object or
the field is missing, `None`, zero, or non-numeric. -/
def getSpeedtestFields (scan : ScanDoc) : ℚ × ℚ × ℚ :=
  match scan.speedtest with
  | none => (0, 0, 0)
  | some sp => (sp.download_mbps.getD 0, sp.upload_mbps.getD 0, sp.ping_ms.getD 0)

/-- The result of `compare`: either the explicit "no comparison" note dict
or the delta record (which also carries both raw speedtest objects,
`prev.get("speedtest") or {}` being modelled as the raw `Option`). -/
inductive CompareResult where
  | note (msg : String)
  | deltas (download_delta_mbps upload_delta_mbps ping_delta_ms : ℚ)
           (networks_delta : ℤ)
           (prev_speedtest curr_speedtest : Option AnalyzeScan.Speedtest)
deriving DecidableEq

/-- `compare` (lines 42–68 of `compare_scans.py`): deltas are
`round(current - previous, 2)`; the network delta is the exact count
difference. -/
def compare (prev curr : Option ScanDoc) : CompareResult :=
  match prev, curr with
  | some p, some c =>
      let pf := getSpeedtestFields p
      let cf := getSpeedtestFields c
      let prev_nets := p.networks.getD []
      let curr_nets := c.networks.getD []
      .deltas (pyround2 (cf.1 - pf.1))
              (pyround2 (cf.2.1 - pf.2.1))
              (pyround2 (cf.2.2 - pf.2.2))
              ((curr_nets.length : ℤ) - (prev_nets.length : ℤ))
              p.speedtest c.speedtest
  | _, _ => .note "No previous scan to compare"

/-- `load_latest_two`: the two most recent `wifi_scan_*.json` documents of
the history directory (the list is in sorted filename order, oldest
first), or `(None, None)` when fewer than two exist. -/
def load_latest_two (files : List ScanDoc) : Option ScanDoc × Option ScanDoc :=
  if files.length < 2 then (none, none)
  else ((files.drop (files.length - 2)).head?, (files.drop (files.length - 1)).head?)

/-- Spec vocabulary: the download value of a scan (0 when absent). -/
def downloadOf (s : ScanDoc) : ℚ := (getSpeedtestFields s).1

/-- Spec vocabulary: the upload value of a scan (0 when absent). -/
def uploadOf (s : ScanDoc) : ℚ := (getSpeedtestFields s).2.1

/-- Spec vocabulary: the ping value of a scan (0 when absent). -/
def pingOf (s : ScanDoc) : ℚ := (getSpeedtestFields s).2.2

/-- Spec vocabulary: the number of visible networks of a scan. -/
def networksCount (s : ScanDoc) : ℕ := (s.networks.getD []).length

/-- The spec's worked previous scan:
`{download:100, upload:20, ping:20, networks:5}`. -/
def examplePrev : ScanDoc :=
  ⟨some [⟨"1"⟩, ⟨"1"⟩, ⟨"6"⟩, ⟨"11"⟩, ⟨"36"⟩], some ⟨some 100, some 20, some 20⟩⟩

/-- The spec's worked current scan:
`{download:120, upload:18, ping:25, networks:6}`. -/
def exampleCurr : ScanDoc :=
  ⟨some [⟨"1"⟩, ⟨"1"⟩, ⟨"6"⟩, ⟨"11"⟩, ⟨"36"⟩, ⟨"149"⟩], some ⟨some 120, some 18, some 25⟩⟩

end CompareScans

/-! ## SeriesBuilder (`history_to_series.py`) -/

namespace HistoryToSeries

/-- A Python `datetime` as produced by `datetime.fromisoformat`:
calendar fields plus an optional fixed UTC offset in minutes
(`None` for a naive datetime). -/
structure PyDateTime where
  year : ℕ
  month : ℕ
  day : ℕ
  hour : ℕ
  minute : ℕ
  second : ℕ
  microsecond : ℕ
  tzOffsetMin : Option ℤ
deriving DecidableEq

/-- Gregorian leap year. -/
def isLeap (y : ℕ) : Bool := y % 4 = 0 && (y % 100 ≠ 0 || y % 400 = 0)

/-- Days in a month, for `datetime`'s field validation. -/
def daysInMonth (y m : ℕ) : ℕ :=
  if m = 2 then (if isLeap y then 29 else 28)
  else if m = 4 ∨ m = 6 ∨ m = 9 ∨ m = 11 then 30
  else 31

/-- Parse exactly `n` decimal digits from the front of a character list. -/
def parseFixedNat (n : ℕ) (cs : List Char) : Option (ℕ × List Char) :=
  let ds := cs.take n
  if ds.length = n ∧ ds.all Char.isDigit then
    some (ds.foldl (fun a c => 10 * a + (c.toNat - 48)) 0, cs.drop n)
  else none

/-- Consume one expected character. -/
def expectChar (c : Char) : List Char → Option (List Char)
  | [] => none
  | x :: xs => if x = c then some xs else none

/-- Parse `HH:MM[:SS[.fff|.ffffff]]` (the time grammar accepted by
`datetime.fromisoformat` before Python 3.11), returning
`(hour, minute, second, microsecond)` and the rest of the input. -/
def parseTime (cs : List Char) : Option ((ℕ × ℕ × ℕ × ℕ) × List Char) := do
  let (h, cs1) ← parseFixedNat 2 cs
  let cs2 ← expectChar ':' cs1
  let (mi, cs3) ← parseFixedNat 2 cs2
  match cs3 with
  | ':' :: rest => do
      let (sec, cs4) ← parseFixedNat 2 rest
      match cs4 with
      | '.' :: rest2 =>
          let frac := rest2.takeWhile Char.isDigit
          let fracVal := frac.foldl (fun a c => 10 * a + (c.toNat - 48)) 0
          if frac.length = 3 then some ((h, mi, sec, fracVal * 1000), rest2.drop 3)
          else if frac.length = 6 then some ((h, mi, sec, fracVal), rest2.drop 6)
          else none
      | _ => some ((h, mi, sec, 0), cs4)
  | _ => some ((h, mi, 0, 0), cs3)

/-- Parse an optional trailing `±HH:MM` UTC offset; anything else trailing
is a parse error. -/
def parseTz (cs : List Char) : Option (Option ℤ × List Char) :=
  match cs with
  | [] => some (none, [])
  | c :: rest =>
      if c = '+' ∨ c = '-' then do
        let (th, cs1) ← parseFixedNat 2 rest
        let cs2 ← expectChar ':' cs1
        let (tm, cs3) ← parseFixedNat 2 cs2
        let off : ℤ := th * 60 + tm
        some (some (if c = '-' then -off else off), cs3)
      else none

/-- `datetime.fromisoformat` (Python 3.7–3.10 grammar):
`YYYY-MM-DD[<sep>HH:MM[:SS[.fff|.ffffff]][±HH:MM]]`, with calendar and
clock field validation. -/
def fromisoformat (s : String) : Option PyDateTime := do
  let cs := s.toList
  let (y, cs1) ← parseFixedNat 4 cs
  let cs2 ← expectChar '-' cs1
  let (mo, cs3) ← parseFixedNat 2 cs2
  let cs4 ← expectChar '-' cs3
  let (d, cs5) ← parseFixedNat 2 cs4
  let (t, tz) ←
    match cs5 with
    | [] => some ((0, 0, 0, 0), (none : Option ℤ))
    | _ :: rest => do
        let (t, cs6) ← parseTime rest
        let (tz, cs7) ← parseTz cs6
        if cs7.isEmpty then some (t, tz) else none
  if 1 ≤ y ∧ y ≤ 9999 ∧ 1 ≤ mo ∧ mo ≤ 12 ∧ 1 ≤ d ∧ d ≤ daysInMonth y mo
      ∧ t.1 ≤ 23 ∧ t.2.1 ≤ 59 ∧ t.2.2.1 ≤ 59 then
    some ⟨y, mo, d, t.1, t.2.1, t.2.2.1, t.2.2.2, tz⟩
  else none

/-- Days from civil date to the Unix epoch (Howard Hinnant's algorithm,
as implemented by every C/Python date library). -/
def days_from_civil (y : ℤ) (m d : ℕ) : ℤ :=
  let y' := if m ≤ 2 then y - 1 else y
  let era := Int.fdiv y' 400
  let yoe := y' - era * 400
  let mp := (m : ℤ) + (if 2 < m then -3 else 9)
  let doy := Int.fdiv (153 * mp + 2) 5 + (d : ℤ) - 1
  let doe := yoe * 365 + Int.fdiv yoe 4 - Int.fdiv yoe 100 + doy
  era * 146097 + doe - 719468

/-- `datetime.timestamp()` in epoch seconds: an aware datetime subtracts
its own offset; a naive one is interpreted in the machine's local time
zone, modelled by the fixed offset `tzOffsetSec` (seconds east of UTC). -/
def timestampOf (dt : PyDateTime) (tzOffsetSec : ℤ) : ℚ :=
  ((days_from_civil (dt.year : ℤ) dt.month dt.day * 86400
      + (dt.hour : ℤ) * 3600 + (dt.minute : ℤ) * 60 + (dt.second : ℤ) : ℤ) : ℚ)
    + (dt.microsecond : ℚ) / 1000000
    - ((match dt.tzOffsetMin with
        | some off => off * 60
        | none => tzOffsetSec : ℤ) : ℚ)

/-- `ts.replace("Z", "")` for the single-character pattern `"Z"`:
drop every `'Z'`. -/
def replaceZ (s : String) : String := String.mk (s.toList.filter (fun c => c ≠ 'Z'))

/-- A JSON timestamp value: a number or a string. -/
inductive TsVal where
  | num (q : ℚ)
  | str (s : String)
deriving DecidableEq

/-- Python truthiness of a timestamp value (`0`, `0.0` and `""` are falsy). -/
def truthyTs : TsVal → Bool
  | .num q => q ≠ 0
  | .str s => s ≠ ""

/-- Python `a or b` over optional timestamp values. -/
def pyOrTs (a b : Option TsVal) : Option TsVal :=
  match a with
  | some v => if truthyTs v then some v else b
  | none => b

/-- Python `a or b` where `a` is an optional number (`None`, `0` falsy). -/
def pyOrQ (a b : Option ℚ) : Option ℚ :=
  match a with
  | some q => if q = 0 then b else some q
  | none => b

/-- Python `a or b` where `a` is an optional int (`None`, `0` falsy). -/
def pyOrInt (a : Option ℤ) (b : ℤ) : ℤ :=
  match a with
  | some z => if z = 0 then b else z
  | none => b

/-- The `performance` sub-object of a report. -/
structure Perf where
  download_mbps : Option ℚ
  upload_mbps : Option ℚ
  ping_ms : Option ℚ
deriving DecidableEq

/-- The report-shaped fields read by `build_series`/`build_daily`:
`score.wifi_health_score` (nested), `wifi_health_score` (flattened),
`performance`, `outage_detected`, `outage_reason`.
A missing `score` dict or a `score` dict without the key both model as
`score_wifi_health_score = none`; `outage_detected` is the truthiness of
the stored value; an empty `performance` dict models as `none`. -/
structure Report where
  score_wifi_health_score : Option ℚ
  wifi_health_score : Option ℚ
  performance : Option Perf
  outage_detected : Bool
  outage_reason : Option String
deriving DecidableEq

/-- One history record (one `history/*.json` document) plus the
modification time of its file in milliseconds (the fallback timestamp
used by `load_history`).  `latest_report = none` models a missing or
Python-falsy (empty) `latest_report` value; the record's own top-level
report-shaped fields are `self_report` (used because
`report = data.get("latest_report") or data`). -/
structure HRecord where
  ts : Option TsVal
  timestamp : Option TsVal
  time : Option TsVal
  latest_report : Option Report
  self_report : Report
  mtime_ms : ℤ
deriving DecidableEq

/-- `report = data.get("latest_report") or data`. -/
def reportOf (r : HRecord) : Report := r.latest_report.getD r.self_report

/-- `ts = obj.get("ts") or obj.get("timestamp") or obj.get("time")`. -/
def firstTs (r : HRecord) : Option TsVal := pyOrTs r.ts (pyOrTs r.timestamp r.time)

/-- `parse_ts` (lines 10–23 of `history_to_series.py`): numbers are
seconds when `< 1e12` (scaled to ms) and milliseconds otherwise; strings
are stripped of `"Z"`, parsed with `fromisoformat` and converted to ms
at the local offset `tzOffsetSec`; anything else resolves to `None`. -/
def parse_ts (tzOffsetSec : ℤ) (r : HRecord) : Option ℤ :=
  match firstTs r with
  | none => none
  | some (.num q) => some (if q < 10 ^ 12 then pytrunc (q * 1000) else pytrunc q)
  | some (.str s) =>
      match fromisoformat (replaceZ s) with
      | some dt => some (pytrunc (timestampOf dt tzOffsetSec * 1000))
      | none => none

/-- The timestamp `load_history` attaches to a record:
`parse_ts(data) or int(mtime * 1000)`. -/
def resolvedTs (tzOffsetSec : ℤ) (r : HRecord) : ℤ :=
  pyOrInt (parse_ts tzOffsetSec r) r.mtime_ms

/-- `load_history`: attach resolved timestamps and sort ascending by them
(Python's stable `list.sort(key=...)`). -/
def load_history (tzOffsetSec : ℤ) (files : List HRecord) : List (ℤ × HRecord) :=
  (files.map (fun r => (resolvedTs tzOffsetSec r, r))).mergeSort
    (fun a b => decide (a.1 ≤ b.1))

/-- The score resolution of `build_series`/`build_daily`:
`report.get("score", {}).get("wifi_health_score") or report.get("wifi_health_score")`. -/
def scoreOf (rep : Report) : Option ℚ :=
  pyOrQ rep.score_wifi_health_score rep.wifi_health_score

/-- The score series of `build_series`: one `{ts, score}` point per record
whose score resolves. -/
def score_series (items : List (ℤ × HRecord)) : List (ℤ × ℚ) :=
  items.filterMap (fun i =>
    match scoreOf (reportOf i.2) with
    | some q => some (i.1, q)
    | none => none)

/-- The performance series of `build_series`: one point per record with a
truthy `performance` object. -/
def perf_series (items : List (ℤ × HRecord)) : List (ℤ × Perf) :=
  items.filterMap (fun i =>
    match (reportOf i.2).performance with
    | some p => some (i.1, p)
    | none => none)

/-- The outage-event list of `build_series`: records whose report is
flagged `outage_detected`. -/
def outage_events (items : List (ℤ × HRecord)) : List (ℤ × String) :=
  items.filterMap (fun i =>
    if (reportOf i.2).outage_detected then
      some (i.1, (reportOf i.2).outage_reason.getD "unknown")
    else none)

/-- The calendar day of `build_daily`:
`datetime.fromtimestamp(ts/1000).strftime("%Y-%m-%d")`, modelled as the
epoch-day index at the fixed local offset (the `%Y-%m-%d` string and the
epoch-day number are in bijection). -/
def dayKey (tzOffsetSec : ℤ) (tsms : ℤ) : ℤ :=
  ⌊((tsms : ℚ) / 1000 + (tzOffsetSec : ℚ)) / 86400⌋

/-- One value of the `daily` dict: during accumulation `avg_score` holds
the running sum, exactly as in the Python code. -/
structure DailyCell where
  count : ℕ
  avg_score : ℚ
deriving DecidableEq

/-- One record's contribution to its day's cell: score-bearing records
bump the count and add to the sum; others leave the cell unchanged. -/
def updateCell (c : DailyCell) (score : Option ℚ) : DailyCell :=
  match score with
  | some q => ⟨c.count + 1, c.avg_score + q⟩
  | none => c

/-- `daily.setdefault(day, {"count":0, "avg_score":0})` followed by the
conditional accumulation, on an association-list model of the dict. -/
def upsertDaily : List (ℤ × DailyCell) → ℤ → Option ℚ → List (ℤ × DailyCell)
  | [], day, sc => [(day, updateCell ⟨0, 0⟩ sc)]
  | (k, c) :: rest, day, sc =>
      if k = day then (k, updateCell c sc) :: rest
      else (k, c) :: upsertDaily rest day sc

/-- The finalization pass: `avg_score = round(avg_score / count, 2)` for
every day with a nonzero count. -/
def finalizeDaily (l : List (ℤ × DailyCell)) : List (ℤ × DailyCell) :=
  l.map (fun kc =>
    (kc.1, if kc.2.count ≠ 0 then ⟨kc.2.count, pyround2 (kc.2.avg_score / (kc.2.count : ℚ))⟩
           else kc.2))

/-- The accumulation loop of `build_daily` over the item list. -/
def dailyLoop (tzOffsetSec : ℤ) (items : List (ℤ × HRecord)) (acc : List (ℤ × DailyCell)) :
    List (ℤ × DailyCell) :=
  items.foldl (fun acc i => upsertDaily acc (dayKey tzOffsetSec i.1) (scoreOf (reportOf i.2))) acc

/-- `build_daily` (lines 72–92 of `history_to_series.py`). -/
def build_daily (tzOffsetSec : ℤ) (items : List (ℤ × HRecord)) : List (ℤ × DailyCell) :=
  finalizeDaily (dailyLoop tzOffsetSec items [])

/-- Dict lookup on the association-list model. -/
def lookupDaily : List (ℤ × DailyCell) → ℤ → Option DailyCell
  | [], _ => none
  | (k, c) :: rest, day => if k = day then some c else lookupDaily rest day

/-- The scores of the records falling on a given day, in record order
(spec vocabulary for the daily aggregate). -/
def dayScores (tzOffsetSec : ℤ) (day : ℤ) (items : List (ℤ × HRecord)) : List ℚ :=
  items.filterMap (fun i =>
    if dayKey tzOffsetSec i.1 = day then scoreOf (reportOf i.2) else none)

/-- A report with no usable fields (for building example records). -/
def emptyReport : Report := ⟨none, none, none, false, none⟩

/-- Example record: explicit numeric timestamp 2000 (seconds). -/
def recNumSec : HRecord := ⟨some (.num 2000), none, none, none, emptyReport, 0⟩

/-- Example record: explicit numeric timestamp 2 000 000 000 000
(already milliseconds). -/
def recNumMs : HRecord := ⟨some (.num 2000000000000), none, none, none, emptyReport, 0⟩

/-- Example record holding both an ISO string under the key `ts` and a
number under the key `timestamp`. -/
def recMixed : HRecord :=
  ⟨some (.str "1970-01-05"), some (.num 2000), none, none, emptyReport, 999⟩

/-- Example record whose report carries a flattened health score of 80. -/
def rec80 : HRecord := ⟨none, none, none, some ⟨none, some 80, none, false, none⟩, emptyReport, 0⟩

/-- Example record whose report carries a flattened health score of 90. -/
def rec90 : HRecord := ⟨none, none, none, some ⟨none, some 90, none, false, none⟩, emptyReport, 0⟩

/-- Example record exposing a health score of 0 at the nested location
(`score.wifi_health_score`) and nothing at the flattened location. -/
def recNestedZero : HRecord := ⟨none, none, none, none, ⟨some 0, none, none, false, none⟩, 0⟩

/-- Example record exposing a health score of 50 at the flattened
location only. -/
def recFlat50 : HRecord := ⟨none, none, none, none, ⟨none, some 50, none, false, none⟩, 0⟩

/-- Modelled from the claim's wording (for the refutation of C6): the
first *numeric* field among `ts`, `timestamp`, `time`. -/
def claimedNumeric (r : HRecord) : Option ℚ :=
  match r.ts with
  | some (.num q) => some q
  | _ =>
      match r.timestamp with
      | some (.num q) => some q
      | _ =>
          match r.time with
          | some (.num q) => some q
          | _ => none

/-- Modelled from the claim's wording (for the refutation of C6): the
first *string* field among `ts`, `timestamp`, `time` that parses as
ISO-8601, converted to milliseconds. -/
def claimedIso (tzOffsetSec : ℤ) (r : HRecord) : Option ℤ :=
  match r.ts with
  | some (.str s) =>
      (fromisoformat (replaceZ s)).map (fun dt => pytrunc (timestampOf dt tzOffsetSec * 1000))
  | _ =>
      match r.timestamp with
      | some (.str s) =>
          (fromisoformat (replaceZ s)).map (fun dt => pytrunc (timestampOf dt tzOffsetSec * 1000))
      | _ =>
          match r.time with
          | some (.str s) =>
              (fromisoformat (replaceZ s)).map
                (fun dt => pytrunc (timestampOf dt tzOffsetSec * 1000))
          | _ => none

/-- Modelled from the claim's wording (for the refutation of C6): resolve
a numeric field first (with the 1e12 rule), else an ISO-8601 string
field, else the storage modification time. -/
def claimedResolve (tzOffsetSec : ℤ) (r : HRecord) : ℤ :=
  match claimedNumeric r with
  | some q => if q < 10 ^ 12 then pytrunc (q * 1000) else pytrunc q
  | none =>
      match claimedIso tzOffsetSec r with
      | some z => z
      | none => r.mtime_ms

end HistoryToSeries

/-! ## RunGuard (`agent_server.py` / `agent_scheduler.py`) -/

namespace AgentServer

/-- The side-effecting steps a guarded job body can perform
(`subprocess.run` of the scanner/optimizer, `copy_to_history`,
`update_series_files`). -/
inductive Action where
  | runScanner (speedtest : Bool)
  | appendHistory (tag : String)
  | runOptimizer
  | rebuildSeries
deriving DecidableEq

/-- Body of the `/monitor-tick` endpoint:
scan without speedtest, append history, rebuild series. -/
def monitorBody : List Action :=
  [.runScanner false, .appendHistory "passive", .rebuildSeries]

/-- Body of `/refresh-now` and `/troubleshoot-now`:
scan with speedtest, append history, run the optimizer, rebuild series. -/
def refreshBody : List Action :=
  [.runScanner true, .appendHistory "speedtest", .runOptimizer, .rebuildSeries]

/-- Body of the scheduler's `passive_tick` job (identical to the
monitor-tick body). -/
def passiveBody : List Action :=
  [.runScanner false, .appendHistory "passive", .rebuildSeries]

/-- Result of one guarded invocation: whether the `RUN_LOCK.locked()`
pre-check skipped it, the body steps actually performed, whether the
body raised, and the lock state after the invocation returns. -/
structure GuardedOutcome where
  skipped : Bool
  performed : List Action
  raised : Bool
  lockAfter : Bool
deriving DecidableEq

/-- The `if RUN_LOCK.locked(): return skip` pre-check followed by
`with RUN_LOCK: <body>`.  `failAt = some n` means the n-th body step
raises an exception.  Python's `with` releases the lock on every exit
path, so an invocation that acquired the lock always leaves it free;
a skipped invocation leaves the lock with its current holder. -/
def guardedRun (lockHeld : Bool) (body : List Action) (failAt : Option ℕ) : GuardedOutcome :=
  if lockHeld then ⟨true, [], false, lockHeld⟩
  else
    match failAt with
    | none => ⟨false, body, false, false⟩
    | some n =>
        if n < body.length then ⟨false, body.take n, true, false⟩
        else ⟨false, body, false, false⟩

/-- The JSON responses of the three Flask endpoints:
`{"ok": True}` or `{"ok": False, "skipped": True}`. -/
inductive HttpResponse where
  | okResp
  | skippedResp
deriving DecidableEq

/-- The response computed from a guarded outcome: skipped invocations
answer the explicit skipped JSON; a raising body propagates the
exception (`Except.error`). -/
def endpointResult (g : GuardedOutcome) : Except Unit HttpResponse :=
  if g.skipped then .ok .skippedResp
  else if g.raised then .error () else .ok .okResp

/-- The `/monitor-tick` handler (lines 54–64 of `agent_server.py`). -/
def monitor_tick (lockHeld : Bool) (failAt : Option ℕ) :
    Except Unit HttpResponse × GuardedOutcome :=
  let g := guardedRun lockHeld monitorBody failAt
  (endpointResult g, g)

/-- The `/refresh-now` handler (lines 66–77 of `agent_server.py`). -/
def refresh_now (lockHeld : Bool) (failAt : Option ℕ) :
    Except Unit HttpResponse × GuardedOutcome :=
  let g := guardedRun lockHeld refreshBody failAt
  (endpointResult g, g)

/-- The `/troubleshoot-now` handler (lines 79–90 of `agent_server.py`). -/
def troubleshoot_now (lockHeld : Bool) (failAt : Option ℕ) :
    Except Unit HttpResponse × GuardedOutcome :=
  let g := guardedRun lockHeld refreshBody failAt
  (endpointResult g, g)

/-- The scheduler's `passive_tick` job (lines 34–47 of
`agent_scheduler.py`): a plain Python function returning `None` both
when it skips and when it completes; only an exception distinguishes. -/
def passive_tick (lockHeld : Bool) (failAt : Option ℕ) :
    Except Unit Unit × GuardedOutcome :=
  let g := guardedRun lockHeld passiveBody failAt
  (if g.raised then .error () else .ok (), g)

end AgentServer

/-! ## Theorems -/

namespace AgentCore

theorem mem_outage_step_iff (st : MonitorState) (t : Tick) (a b d : ℚ) (s : Option String) :
    Event.outage a b d s ∈ (step st t).2 ↔
      t.ok = true ∧ st.current_outage_start = some a ∧ a ≠ 0 ∧ b = t.now
        ∧ d = pyround2 (t.now - a)
        ∧ s = carriedSsid st t
        ∧ OUTAGE_MIN_DURATION_SEC ≤ t.now - a := by
  rcases t with ⟨now, ok, ssid⟩
  cases ok
  · simp [step]
  · cases hc : st.current_outage_start with
    | none => simp [step, hc]
    | some a' =>
        by_cases hz : a' = 0
        · subst hz
          simp [step, hc]
          rintro rfl
          simp
        · by_cases h : OUTAGE_MIN_DURATION_SEC ≤ now - a'
          · simp [step, hc, hz, carriedSsid, h]
            constructor
            · rintro ⟨rfl, h2, h3, h4⟩
              exact ⟨rfl, hz, h2, h3, h4, h⟩
            · rintro ⟨rfl, -, h2, h3, h4, -⟩
              exact ⟨rfl, h2, h3, h4⟩
          · simp [step, hc, hz, carriedSsid, h]
            rintro rfl - - - -
            exact not_le.mp h

theorem heartbeat_mem_step (st : MonitorState) (t : Tick) :
    Event.heartbeat t.now t.ok t.ssid ∈ (step st t).2 := by
  unfold step
  rcases t with ⟨now, ok, ssid⟩
  dsimp only
  cases ok
  · simp
  · cases st.current_outage_start with
    | none => simp
    | some a => by_cases hz : a = 0 <;> simp [hz]

theorem step_fail_preserves (st : MonitorState) (t : Tick) (h : t.ok = false) :
    (step st t).1.last_ok_time = st.last_ok_time := by
  unfold step
  rw [h, if_neg (by simp)]
  dsimp only
  split_ifs <;> rfl

theorem step_fail_cos (st : MonitorState) (t : Tick) (h : t.ok = false) :
    (step st t).1.current_outage_start =
      (if truthyStart st.current_outage_start = false
          ∧ OUTAGE_START_SEC ≤ t.now - st.last_ok_time
       then some t.now else st.current_outage_start) := by
  unfold step
  rw [h, if_neg (by simp)]
  dsimp only
  split_ifs <;> rfl

theorem step_ok_cos (st : MonitorState) (t : Tick) (h : t.ok = true)
    (hc : st.current_outage_start = none) :
    (step st t).1.current_outage_start = none := by
  unfold step
  rw [h, if_pos rfl, hc]

theorem min_le_pyround2 {q : ℚ} (h : OUTAGE_MIN_DURATION_SEC ≤ q) :
    OUTAGE_MIN_DURATION_SEC ≤ pyround2 q := by
  have h10 : ((10 : ℤ) : ℚ) ≤ pyround2 q := by
    refine le_pyround2 10 q ?_
    unfold OUTAGE_MIN_DURATION_SEC at h
    exact_mod_cast h
  unfold OUTAGE_MIN_DURATION_SEC
  exact_mod_cast h10

end AgentCore

namespace HistoryToSeries

theorem lookupDaily_upsertDaily (acc : List (ℤ × DailyCell)) (day day' : ℤ) (sc : Option ℚ) :
    lookupDaily (upsertDaily acc day sc) day' =
      if day = day' then some (updateCell ((lookupDaily acc day).getD ⟨0, 0⟩) sc)
      else lookupDaily acc day' := by
  induction acc with
  | nil =>
      by_cases h : day = day'
      · subst h; simp [upsertDaily, lookupDaily]
      · simp [upsertDaily, lookupDaily, h]
  | cons kc rest ih =>
      rcases kc with ⟨k, c⟩
      by_cases hk : k = day
      · subst hk
        rw [show upsertDaily ((k, c) :: rest) k sc = (k, updateCell c sc) :: rest from by
              simp [upsertDaily]]
        rw [show lookupDaily ((k, c) :: rest) k = some c from by simp [lookupDaily]]
        by_cases h : k = day'
        · subst h
          simp [lookupDaily]
        · simp [lookupDaily, h]
      · rw [show upsertDaily ((k, c) :: rest) day sc = (k, c) :: upsertDaily rest day sc from by
              simp [upsertDaily, hk]]
        rw [show lookupDaily ((k, c) :: rest) day = lookupDaily rest day from by
              simp [lookupDaily, hk]]
        by_cases h : k = day'
        · subst h
          have hd : ¬(day = k) := fun hh => hk hh.symm
          simp [lookupDaily, hd]
        · simp only [lookupDaily, if_neg h]
          exact ih

theorem lookupDaily_dailyLoop (tz : ℤ) (items : List (ℤ × HRecord))
    (acc : List (ℤ × DailyCell)) (day : ℤ) :
    lookupDaily (dailyLoop tz items acc) day =
      match lookupDaily acc day with
      | some c => some ⟨c.count + (dayScores tz day items).length,
                        c.avg_score + (dayScores tz day items).sum⟩
      | none =>
          if (items.filter (fun i => dayKey tz i.1 = day)).length = 0 then none
          else some ⟨(dayScores tz day items).length, (dayScores tz day items).sum⟩ := by
  induction items generalizing acc with
  | nil =>
      cases h : lookupDaily acc day with
      | none => simp [dailyLoop, dayScores, h]
      | some c => simp [dailyLoop, dayScores, h]
  | cons i rest ih =>
      have hloop : dailyLoop tz (i :: rest) acc
          = dailyLoop tz rest (upsertDaily acc (dayKey tz i.1) (scoreOf (reportOf i.2))) := rfl
      rw [hloop, ih, lookupDaily_upsertDaily]
      by_cases hd : dayKey tz i.1 = day
      · rw [if_pos hd, hd]
        have hscores : dayScores tz day (i :: rest)
            = match scoreOf (reportOf i.2) with
              | some q => q :: dayScores tz day rest
              | none => dayScores tz day rest := by
          unfold dayScores
          rw [List.filterMap_cons]
          rw [if_pos hd]
          cases scoreOf (reportOf i.2) <;> rfl
        have hfilter : ((i :: rest).filter (fun i => dayKey tz i.1 = day)).length
            = ((rest).filter (fun i => dayKey tz i.1 = day)).length + 1 := by
          rw [List.filter_cons, if_pos (by simpa using hd)]
          rfl
        cases hsc : scoreOf (reportOf i.2) with
        | some q =>
            cases hl : lookupDaily acc day with
            | some c =>
                simp only [hscores, hsc, hl, Option.getD_some, updateCell,
                  List.length_cons, List.sum_cons]
                refine congrArg some ?_
                refine congrArg₂ DailyCell.mk ?_ ?_
                · omega
                · ring
            | none =>
                simp only [hscores, hsc, hl, Option.getD_none, updateCell,
                  List.length_cons, List.sum_cons, hfilter]
                rw [if_neg (by omega)]
                refine congrArg some ?_
                refine congrArg₂ DailyCell.mk ?_ ?_
                · omega
                · ring
        | none =>
            cases hl : lookupDaily acc day with
            | some c =>
                simp only [hscores, hsc, hl, Option.getD_some, updateCell]
            | none =>
                simp only [hscores, hsc, hl, Option.getD_none, updateCell, hfilter]
                rw [if_neg (by omega)]
                simp
      · rw [if_neg hd]
        have hscores : dayScores tz day (i :: rest) = dayScores tz day rest := by
          unfold dayScores
          rw [List.filterMap_cons, if_neg hd]
        have hfilter : ((i :: rest).filter (fun i => dayKey tz i.1 = day)).length
            = ((rest).filter (fun i => dayKey tz i.1 = day)).length := by
          rw [List.filter_cons, if_neg (by simpa using hd)]
        rw [hscores, hfilter]

theorem lookupDaily_finalizeDaily (l : List (ℤ × DailyCell)) (day : ℤ) :
    lookupDaily (finalizeDaily l) day =
      (lookupDaily l day).map (fun c =>
        if c.count ≠ 0 then ⟨c.count, pyround2 (c.avg_score / (c.count : ℚ))⟩ else c) := by
  induction l with
  | nil => rfl
  | cons kc rest ih =>
      rcases kc with ⟨k, c⟩
      by_cases h : k = day
      · subst h; simp [finalizeDaily, lookupDaily]
      · simp only [finalizeDaily, List.map_cons, lookupDaily, if_neg h]
        exact ih

end HistoryToSeries

open AgentCore in
/-- C2 (counterexample): the claimed invariant `duration_sec = ts_end − ts_start`
fails as stated.  Closing a 10.004-second outage appends an OutageEvent whose
stored `duration_sec` is 10 (the code rounds the duration to 2 decimal
places at line 95 of `agent_core.py`), which differs from
`ts_end − ts_start = 10.004`. -/
theorem outage_duration_rounded_counterexample :
    Event.outage 100 (110004/1000) 10 none
        ∈ (run ⟨some 100, 0, none⟩ [⟨110004/1000, true, none⟩]).2
      ∧ (10 : ℚ) ≠ 110004/1000 - 100 := by
  constructor
  · have h := (mem_outage_step_iff ⟨some 100, 0, none⟩ ⟨110004/1000, true, none⟩
        100 (110004/1000) 10 none).mpr
      ⟨rfl, rfl, by norm_num, rfl, by norm_num [pyround2, roundHalfEven], rfl,
        by norm_num [OUTAGE_MIN_DURATION_SEC]⟩
    simpa [run] using h
  · norm_num

open AgentCore in
/-- C2 (amended): for every run of the OutageMonitor poll loop, an OutageEvent
is appended only when a confirmed open outage (with its truthy, i.e.
non-zero, start time) closes on a successful probe with duration ≥
`OUTAGE_MIN_DURATION_SEC`; every appended OutageEvent satisfies
`duration_sec = ts_end − ts_start` rounded to 2 decimal places and
`duration_sec ≥ OUTAGE_MIN_DURATION_SEC`; for every closed outage whose
duration is below the threshold no OutageEvent is appended, yet a
HeartbeatEvent is still appended on that tick. -/
theorem outage_events_only_qualified_closes :
    (∀ (st : MonitorState) (ts : List Tick) (a b d : ℚ) (s : Option String),
        Event.outage a b d s ∈ (run st ts).2 →
          d = pyround2 (b - a) ∧ OUTAGE_MIN_DURATION_SEC ≤ d)
    ∧ (∀ (st : MonitorState) (t : Tick),
        (∃ a b d s, Event.outage a b d s ∈ (step st t).2) ↔
          t.ok = true ∧ ∃ a, st.current_outage_start = some a ∧ a ≠ 0
            ∧ OUTAGE_MIN_DURATION_SEC ≤ t.now - a)
    ∧ (∀ (st : MonitorState) (t : Tick) (a : ℚ),
        t.ok = true → st.current_outage_start = some a →
        t.now - a < OUTAGE_MIN_DURATION_SEC →
        (step st t).2 = [Event.heartbeat t.now true t.ssid])
    ∧ (∀ (st : MonitorState) (t : Tick),
        Event.heartbeat t.now t.ok t.ssid ∈ (step st t).2) := by
  refine ⟨?_, ?_, ?_, heartbeat_mem_step⟩
  · intro st ts
    induction ts generalizing st with
    | nil =>
        intro a b d s h
        simp [run] at h
    | cons t rest ih =>
        intro a b d s h
        simp only [run, List.mem_append] at h
        rcases h with h | h
        · rcases (mem_outage_step_iff st t a b d s).mp h with ⟨-, -, -, rfl, rfl, -, hge⟩
          exact ⟨rfl, min_le_pyround2 hge⟩
        · exact ih _ a b d s h
  · intro st t
    constructor
    · rintro ⟨a, b, d, s, h⟩
      rcases (mem_outage_step_iff st t a b d s).mp h with ⟨hok, hcos, hz, -, -, -, hge⟩
      exact ⟨hok, a, hcos, hz, hge⟩
    · rintro ⟨hok, a, hcos, hz, hge⟩
      exact ⟨a, t.now, pyround2 (t.now - a), carriedSsid st t,
        (mem_outage_step_iff st t a t.now (pyround2 (t.now - a)) (carriedSsid st t)).mpr
          ⟨hok, hcos, hz, rfl, rfl, rfl, hge⟩⟩
  · intro st t a hok hcos hlt
    unfold step
    rw [hok, if_pos rfl, hcos]
    dsimp only
    by_cases hz : a = 0
    · rw [if_pos hz]
    · rw [if_neg hz]
      dsimp only
      rw [if_neg (not_le.mpr hlt)]
      rfl

open AgentCore in
/-- C2 witness: a 12-second outage closing on a successful probe does append
an OutageEvent, and that event's stored duration is the rounded difference
and is at least the minimum duration. -/
theorem outage_events_only_qualified_closes_witness :
    Event.outage 100 112 12 none ∈ (run ⟨some 100, 0, none⟩ [⟨112, true, none⟩]).2
    ∧ ((12 : ℚ) = pyround2 (112 - 100) ∧ OUTAGE_MIN_DURATION_SEC ≤ 12) := by
  have hmem : Event.outage 100 112 12 none
      ∈ (run ⟨some 100, 0, none⟩ [⟨112, true, none⟩]).2 := by
    have h := (mem_outage_step_iff ⟨some 100, 0, none⟩ ⟨112, true, none⟩ 100 112 12 none).mpr
      ⟨rfl, rfl, by norm_num, rfl, by norm_num [pyround2, roundHalfEven], rfl,
        by norm_num [OUTAGE_MIN_DURATION_SEC]⟩
    simpa [run] using h
  exact ⟨hmem,
    outage_events_only_qualified_closes.1 ⟨some 100, 0, none⟩ [⟨112, true, none⟩]
      100 112 12 none hmem⟩

open AgentCore in
/-- C3: for every sequence of poll ticks in which the connectivity probe fails
continuously for a span shorter than `OUTAGE_START_SEC` since `last_ok_time`,
the OutageMonitor never opens an outage; an outage is opened, with
`outage_start` set to the current time, only once continuous failure has
lasted at least `OUTAGE_START_SEC`. -/
theorem no_outage_before_start_threshold :
    (∀ (st : MonitorState) (t : Tick),
        t.ok = false → st.current_outage_start = none →
        t.now - st.last_ok_time < OUTAGE_START_SEC →
        (step st t).1.current_outage_start = none)
    ∧ (∀ (st : MonitorState) (t : Tick) (a : ℚ),
        st.current_outage_start = none →
        (step st t).1.current_outage_start = some a →
        a = t.now ∧ t.ok = false ∧ OUTAGE_START_SEC ≤ t.now - st.last_ok_time)
    ∧ (∀ (st : MonitorState) (ts : List Tick),
        st.current_outage_start = none →
        (∀ t ∈ ts, t.ok = false ∧ t.now - st.last_ok_time < OUTAGE_START_SEC) →
        (run st ts).1.current_outage_start = none) := by
  refine ⟨?_, ?_, ?_⟩
  · intro st t hok hcos hlt
    rw [step_fail_cos st t hok, if_neg (fun hc => absurd hc.2 (not_le.mpr hlt))]
    exact hcos
  · intro st t a hcos hsome
    cases hok : t.ok
    · rw [step_fail_cos st t hok] at hsome
      split_ifs at hsome with hcond
      · rw [Option.some.injEq] at hsome
        exact ⟨hsome.symm, rfl, hcond.2⟩
      · rw [hcos] at hsome
        cases hsome
    · rw [step_ok_cos st t hok hcos] at hsome
      cases hsome
  · intro st ts
    induction ts generalizing st with
    | nil => intro hcos _; exact hcos
    | cons t rest ih =>
        intro hcos hall
        obtain ⟨hok, hlt⟩ := hall t (List.mem_cons_self t rest)
        have hcos' : (step st t).1.current_outage_start = none := by
          rw [step_fail_cos st t hok, if_neg (fun hc => absurd hc.2 (not_le.mpr hlt))]
          exact hcos
        have hlot : (step st t).1.last_ok_time = st.last_ok_time := step_fail_preserves st t hok
        have := ih (step st t).1 hcos' (fun t' ht' => by
          obtain ⟨h1, h2⟩ := hall t' (List.mem_cons_of_mem t ht')
          exact ⟨h1, hlot ▸ h2⟩)
        simpa [run] using this

open AgentCore in
/-- C3 witness: from a clean state, a single failing tick 5 seconds after the
last success (below the 15-second threshold) leaves no outage open. -/
theorem no_outage_before_start_threshold_witness :
    ((⟨none, 0, none⟩ : MonitorState).current_outage_start = none
      ∧ (∀ t ∈ [Tick.mk 5 false none],
          t.ok = false ∧ t.now - (⟨none, 0, none⟩ : MonitorState).last_ok_time < OUTAGE_START_SEC))
    ∧ (run ⟨none, 0, none⟩ [⟨5, false, none⟩]).1.current_outage_start = none := by
  have h1 : (⟨none, 0, none⟩ : MonitorState).current_outage_start = none := rfl
  have h2 : ∀ t ∈ [Tick.mk 5 false none],
      t.ok = false ∧ t.now - (⟨none, 0, none⟩ : MonitorState).last_ok_time < OUTAGE_START_SEC := by
    intro t ht
    rw [List.mem_singleton] at ht
    subst ht
    exact ⟨rfl, by norm_num [OUTAGE_START_SEC]⟩
  exact ⟨⟨h1, h2⟩, no_outage_before_start_threshold.2.2 ⟨none, 0, none⟩ [⟨5, false, none⟩] h1 h2⟩

set_option maxHeartbeats 2000000 in
open AnalyzeScan in
/-- C1: for every input snapshot (any network list, including empty, and any
speedtest object), `analyze` returns `wifi_health_score` equal to 100 minus
the ordered penalties (2.4 GHz count ≥ 6 gives −20 else ≥ 3 gives −10;
5 GHz count ≥ 8 gives −15 else ≥ 4 gives −8; download < 50 gives −15;
upload < 10 gives −10; ping > 50 gives −10), clamped to `[0,100]`; hence the
score is always an integer in `[0,100]`, and for 2.4 GHz count 7, 5 GHz
count 9, download 30, upload 5, ping 80 the score is 30. -/
theorem health_score_formula_bounds_example :
    (∀ scan : Scan,
        (analyze scan).wifi_health_score
          = clamp100
              (100 - penalty24 (count24 scan.networks)
                   - penalty5 (count5 scan.networks)
                   - penaltyDown (downOf scan)
                   - penaltyUp (upOf scan)
                   - penaltyPing (pingOf scan))
        ∧ 0 ≤ (analyze scan).wifi_health_score
        ∧ (analyze scan).wifi_health_score ≤ 100)
    ∧ count24 exampleScan.networks = 7
    ∧ count5 exampleScan.networks = 9
    ∧ downOf exampleScan = 30
    ∧ upOf exampleScan = 5
    ∧ pingOf exampleScan = 80
    ∧ (analyze exampleScan).wifi_health_score = 30 := by
  refine ⟨fun scan => ?_, by decide, by decide, by decide, by decide, by decide, by decide⟩
  unfold analyze clamp100 penalty24 penalty5 penaltyDown penaltyUp penaltyPing
  refine ⟨?_, ?_, ?_⟩ <;> (dsimp only; split_ifs <;> omega)

open CompareScans in
/-- C4 (counterexample): the claimed exact equality
`download_delta_mbps = current download − previous download` fails as
stated: the code rounds every delta to 2 decimal places, so a download
difference of 0.004 Mbps is reported as 0. -/
theorem delta_rounding_counterexample :
    CompareScans.compare (some ⟨none, some ⟨some 0, none, none⟩⟩)
            (some ⟨none, some ⟨some (1/250), none, none⟩⟩)
      = .deltas 0 0 0 0 (some ⟨some 0, none, none⟩) (some ⟨some (1/250), none, none⟩)
    ∧ (1/250 : ℚ) - 0 ≠ 0 := by
  refine ⟨?_, by norm_num⟩
  simp only [CompareScans.compare, getSpeedtestFields, CompareResult.deltas.injEq]
  norm_num [pyround2, roundHalfEven]

open CompareScans in
/-- C4 (amended): for every pair of scan snapshots both containing data,
`compare` returns each speed delta as `current − previous` rounded to
2 decimal places (positive download/upload = faster, positive ping = worse)
and `networks_delta` as the exact count difference; in particular the
spec's worked example yields
`{download_delta: 20.0, upload_delta: −2.0, ping_delta: 5.0, networks_delta: 1}`. -/
theorem trend_delta_sign_convention :
    (∀ p c : ScanDoc,
        CompareScans.compare (some p) (some c)
          = .deltas (pyround2 (downloadOf c - downloadOf p))
                    (pyround2 (uploadOf c - uploadOf p))
                    (pyround2 (pingOf c - pingOf p))
                    ((networksCount c : ℤ) - (networksCount p : ℤ))
                    p.speedtest c.speedtest)
    ∧ CompareScans.compare (some examplePrev) (some exampleCurr)
        = .deltas 20 (-2) 5 1 examplePrev.speedtest exampleCurr.speedtest := by
  constructor
  · intro p c
    rfl
  · simp only [CompareScans.compare, examplePrev, exampleCurr, getSpeedtestFields,
      CompareResult.deltas.injEq]
    norm_num [pyround2, roundHalfEven]

open CompareScans in
/-- C5: whenever fewer than two prior scan snapshots exist in the history,
the DeltaEngine returns the explicit "no comparison available" sentinel
(a result distinguishable from any numeric delta record), never a delta
record of zeros. -/
theorem no_comparison_sentinel :
    (∀ files : List ScanDoc, files.length < 2 →
        CompareScans.compare (load_latest_two files).1 (load_latest_two files).2
          = .note "No previous scan to compare")
    ∧ (∀ (msg : String) (a b c : ℚ) (n : ℤ) (ps cs : Option AnalyzeScan.Speedtest),
        CompareResult.note msg ≠ .deltas a b c n ps cs) := by
  constructor
  · intro files h
    unfold load_latest_two
    rw [if_pos h]
    rfl
  · intro msg a b c n ps cs h
    exact CompareResult.noConfusion h

open CompareScans in
/-- C5 witness: an empty history has fewer than two snapshots, and the
pipeline indeed returns the sentinel note. -/
theorem no_comparison_sentinel_witness :
    ([] : List ScanDoc).length < 2
    ∧ CompareScans.compare (load_latest_two ([] : List ScanDoc)).1 (load_latest_two ([] : List ScanDoc)).2
        = .note "No previous scan to compare" :=
  ⟨by norm_num, no_comparison_sentinel.1 [] (by norm_num)⟩

open AnalyzeScan in
/-- C10: for every input snapshot, `wifi_health_score` is at least 30: the
penalties sum to at most 70 (20 + 15 + 15 + 10 + 10), so the lower clamp to
0 is unreachable and no input can ever produce a score in `[0, 30)`. -/
theorem health_score_at_least_thirty :
    (∀ scan : Scan, 30 ≤ (analyze scan).wifi_health_score)
    ∧ (∀ (c24 c5 : Nat) (d u p : ℚ),
        penalty24 c24 + penalty5 c5 + penaltyDown d + penaltyUp u + penaltyPing p ≤ 70) := by
  constructor
  · intro scan
    unfold analyze
    dsimp only
    split_ifs <;> omega
  · intro c24 c5 d u p
    unfold penalty24 penalty5 penaltyDown penaltyUp penaltyPing
    split_ifs <;> omega

open HistoryToSeries in
/-- C6 (counterexample): the claimed resolution priority "numeric field
first, then ISO string field" fails as stated.  On a record with the ISO
string `"1970-01-05"` under the key `ts` and the number `2000` under the
key `timestamp`, the code resolves the string (345600000 ms) because the
priority is by key name, while the claimed numeric-first rule would give
2000000 ms. -/
theorem ts_priority_counterexample :
    resolvedTs 0 recMixed = 345600000
    ∧ claimedResolve 0 recMixed = 2000000
    ∧ resolvedTs 0 recMixed ≠ claimedResolve 0 recMixed := by
  have hiso : fromisoformat (replaceZ "1970-01-05") = some ⟨1970, 1, 5, 0, 0, 0, 0, none⟩ := by
    decide
  have hdays : days_from_civil 1970 1 5 = 4 := by decide
  have hp : parse_ts 0 recMixed = some 345600000 := by
    simp [parse_ts, firstTs, recMixed, pyOrTs, truthyTs, hiso]
    norm_num [pytrunc, timestampOf, hdays]
  have h1 : resolvedTs 0 recMixed = 345600000 := by
    simp [resolvedTs, pyOrInt, hp]
  have h2 : claimedResolve 0 recMixed = 2000000 := by
    have hn : claimedNumeric recMixed = some 2000 := rfl
    simp only [claimedResolve, hn]
    norm_num [pytrunc]
  exact ⟨h1, h2, by rw [h1, h2]; norm_num⟩

open HistoryToSeries in
/-- C6 (amended): the SeriesBuilder resolves each record's timestamp by
key-name priority — `ts`, then `timestamp`, then `time`, skipping
Python-falsy values — and then interprets whatever value was found:
a number below 1e12 is seconds and is scaled to milliseconds, a number at
or above 1e12 is taken as milliseconds, an ISO-8601 string is parsed and
converted to milliseconds, and when no field resolves (or the parsed
value is falsy) the record's storage modification time is used; numeric
timestamps 2000 and 2000000000000 normalize to 2000000 ms and
2000000000000 ms respectively under the 1e12 rule. -/
theorem ts_resolution_rules :
    (∀ (tz : ℤ) (r : HRecord) (q : ℚ),
        firstTs r = some (.num q) →
        parse_ts tz r = some (if q < 10 ^ 12 then pytrunc (q * 1000) else pytrunc q))
    ∧ (∀ (tz : ℤ) (r : HRecord) (s : String) (dt : PyDateTime),
        firstTs r = some (.str s) →
        fromisoformat (replaceZ s) = some dt →
        parse_ts tz r = some (pytrunc (timestampOf dt tz * 1000)))
    ∧ (∀ (tz : ℤ) (r : HRecord),
        parse_ts tz r = none → resolvedTs tz r = r.mtime_ms)
    ∧ (∀ (tz : ℤ) (r : HRecord) (z : ℤ),
        parse_ts tz r = some z → z ≠ 0 → resolvedTs tz r = z)
    ∧ parse_ts 0 recNumSec = some 2000000
    ∧ parse_ts 0 recNumMs = some 2000000000000 := by
  refine ⟨?_, ?_, ?_, ?_, ?_, ?_⟩
  · intro tz r q h
    unfold parse_ts
    rw [h]
  · intro tz r s dt h hp
    unfold parse_ts
    rw [h]
    dsimp only
    rw [hp]
  · intro tz r h
    unfold resolvedTs pyOrInt
    rw [h]
  · intro tz r z h hz
    unfold resolvedTs pyOrInt
    rw [h]
    dsimp only
    rw [if_neg hz]
  · simp [parse_ts, firstTs, recNumSec, pyOrTs, truthyTs]
    norm_num [pytrunc]
  · simp [parse_ts, firstTs, recNumMs, pyOrTs, truthyTs]
    norm_num [pytrunc]

open HistoryToSeries in
/-- C6 witness: the resolution rules applied to the record with the
numeric timestamp 2000 (seconds). -/
theorem ts_resolution_rules_witness :
    firstTs recNumSec = some (.num 2000)
    ∧ parse_ts 0 recNumSec
        = some (if (2000 : ℚ) < 10 ^ 12 then pytrunc (2000 * 1000) else pytrunc 2000) :=
  ⟨by decide, ts_resolution_rules.1 0 recNumSec 2000 (by decide)⟩

open HistoryToSeries in
/-- C7: for every set of history records, the daily aggregate groups
records by the calendar day derived from each resolved timestamp and
produces per day a count of score-bearing records (those whose health
score resolves under the code's two-location lookup) and `avg_score`
equal to the sum of their scores divided by the count, rounded to
2 decimal places; two same-day records with scores 80 and 90 yield
`{count: 2, avg_score: 85.0}`. -/
theorem daily_aggregate_counts_and_average :
    (∀ (tz day : ℤ) (items : List (ℤ × HRecord)),
        lookupDaily (build_daily tz items) day
          = if (items.filter (fun i => dayKey tz i.1 = day)).length = 0 then none
            else some ⟨(dayScores tz day items).length,
              if (dayScores tz day items).length ≠ 0 then
                pyround2 ((dayScores tz day items).sum / ((dayScores tz day items).length : ℚ))
              else 0⟩)
    ∧ build_daily 0 [(1000000, rec80), (2000000, rec90)]
        = [(0, ⟨2, 85⟩)] := by
  constructor
  · intro tz day items
    unfold build_daily
    rw [lookupDaily_finalizeDaily, lookupDaily_dailyLoop]
    simp only [lookupDaily]
    by_cases h : (items.filter (fun i => dayKey tz i.1 = day)).length = 0
    · simp [h]
    · by_cases hn : (dayScores tz day items).length = 0
      · have he : dayScores tz day items = [] := List.length_eq_zero.mp hn
        simp [h, hn, he]
      · simp [h, hn]
  · have hk1 : dayKey 0 1000000 = 0 := by norm_num [dayKey]
    have hk2 : dayKey 0 2000000 = 0 := by norm_num [dayKey]
    have hs80 : scoreOf (reportOf rec80) = some 80 := rfl
    have hs90 : scoreOf (reportOf rec90) = some 90 := rfl
    show finalizeDaily (dailyLoop 0 [(1000000, rec80), (2000000, rec90)] []) = _
    have hloop : dailyLoop 0 [(1000000, rec80), (2000000, rec90)] []
        = [(0, ⟨2, 0 + 80 + 90⟩)] := by
      unfold dailyLoop
      simp only [List.foldl_cons, List.foldl_nil, hk1, hk2, hs80, hs90]
      rfl
    rw [hloop]
    unfold finalizeDaily
    simp only [List.map_cons, List.map_nil]
    norm_num [pyround2, roundHalfEven]

open HistoryToSeries in
/-- C8 (counterexample): the claim fails as stated for a record exposing a
health score of 0 at the nested location and nothing at the flattened
one: the Python `or` treats the nested 0 as falsy, the lookup yields
`None`, and no score point is produced for the record. -/
theorem score_series_nested_zero_counterexample :
    (reportOf recNestedZero).score_wifi_health_score = some 0
    ∧ score_series [(5, recNestedZero)] = [] := by
  constructor
  · rfl
  · decide

open HistoryToSeries in
/-- C8 (amended): the score series carries exactly one point per record
whose health score *resolves* under the code's lookup — the nested
`score.wifi_health_score` when it is truthy (non-zero), else the
flattened `wifi_health_score` — carrying the resolved score; records
resolving to no score (including those whose only exposed score is a
nested 0) contribute no point. -/
theorem score_series_resolved_points :
    (∀ items : List (ℤ × HRecord),
        score_series items
          = (items.filter (fun i => (scoreOf (reportOf i.2)).isSome)).map
              (fun i => (i.1, (scoreOf (reportOf i.2)).getD 0)))
    ∧ (∀ (ts : ℤ) (r : HRecord) (q : ℚ),
        scoreOf (reportOf r) = some q → score_series [(ts, r)] = [(ts, q)])
    ∧ (∀ (ts : ℤ) (r : HRecord),
        scoreOf (reportOf r) = none → score_series [(ts, r)] = [])
    ∧ (∀ rep : Report,
        scoreOf rep
          = match rep.score_wifi_health_score with
            | some q => if q = 0 then rep.wifi_health_score else some q
            | none => rep.wifi_health_score) := by
  refine ⟨?_, ?_, ?_, fun rep => rfl⟩
  · intro items
    induction items with
    | nil => rfl
    | cons i rest ih =>
        cases h : scoreOf (reportOf i.2) with
        | none =>
            simp only [score_series, List.filterMap_cons, List.filter_cons, h,
              Option.isSome_none, Bool.false_eq_true, if_false]
            exact ih
        | some q =>
            simp only [score_series, List.filterMap_cons, List.filter_cons, h,
              Option.isSome_some, if_true, List.map_cons, Option.getD_some]
            exact congrArg (fun l => (i.1, q) :: l) ih
  · intro ts r q h
    simp [score_series, h]
  · intro ts r h
    simp [score_series, h]

open HistoryToSeries in
/-- C8 witness: a record with a flattened score of 50 yields exactly one
point carrying 50. -/
theorem score_series_resolved_points_witness :
    scoreOf (reportOf recFlat50) = some 50
    ∧ score_series [(7, recFlat50)] = [(7, 50)] :=
  ⟨rfl, score_series_resolved_points.2.1 7 recFlat50 50 rfl⟩

open AgentServer in
/-- C9 (counterexample): the claim that every covered invocation "returns
an explicit skipped result" fails for the scheduler's `passive_tick` job:
its return value when the guard is held is identical to its return value
on a successful run (Python returns `None` in both cases), so the skip is
not an explicit result — even though it correctly performs no actions. -/
theorem passive_tick_silent_skip_counterexample :
    (passive_tick true none).1 = (passive_tick false none).1
    ∧ (passive_tick true none).2.performed = []
    ∧ (passive_tick false none).2.performed = passiveBody :=
  ⟨rfl, rfl, rfl⟩

open AgentServer in
/-- C9 (amended): every invocation (monitor tick, refresh, troubleshoot,
scheduled passive tick) arriving while the RunGuard is held performs no
scan, no history append and no series rebuild; the three HTTP handlers
answer the explicit skipped response, while the scheduled passive tick
simply returns; when the guard is free the invocation acquires it and the
guard is released on every exit path, including when the job body raises
(in which case the handler propagates the exception after the release). -/
theorem run_guard_contention_and_release :
    (∀ failAt : Option ℕ,
        monitor_tick true failAt = (.ok .skippedResp, ⟨true, [], false, true⟩)
        ∧ refresh_now true failAt = (.ok .skippedResp, ⟨true, [], false, true⟩)
        ∧ troubleshoot_now true failAt = (.ok .skippedResp, ⟨true, [], false, true⟩)
        ∧ passive_tick true failAt = (.ok (), ⟨true, [], false, true⟩))
    ∧ (∀ (body : List Action) (failAt : Option ℕ),
        (guardedRun false body failAt).lockAfter = false)
    ∧ (monitor_tick false none).1 = .ok .okResp
    ∧ (monitor_tick false none).2.performed = monitorBody
    ∧ (∀ n : ℕ, n < refreshBody.length →
        (refresh_now false (some n)).1 = .error ()
        ∧ (refresh_now false (some n)).2.performed = refreshBody.take n
        ∧ (refresh_now false (some n)).2.lockAfter = false) := by
  refine ⟨fun failAt => ⟨rfl, rfl, rfl, rfl⟩, ?_, rfl, rfl, ?_⟩
  · intro body failAt
    unfold guardedRun
    rw [if_neg (by simp)]
    cases failAt with
    | none => rfl
    | some n =>
        dsimp only
        split_ifs <;> rfl
  · intro n h
    have hg : guardedRun false refreshBody (some n) = ⟨false, refreshBody.take n, true, false⟩ := by
      unfold guardedRun
      rw [if_neg (by simp)]
      dsimp only
      rw [if_pos h]
    exact ⟨by simp [refresh_now, endpointResult, hg], by simp [refresh_now, hg],
      by simp [refresh_now, hg]⟩

open AgentServer in
/-- C9 witness: a refresh whose second body step raises still releases the
guard and performed exactly the first step. -/
theorem run_guard_contention_and_release_witness :
    (1 < refreshBody.length)
    ∧ ((refresh_now false (some 1)).1 = .error ()
        ∧ (refresh_now false (some 1)).2.performed = refreshBody.take 1
        ∧ (refresh_now false (some 1)).2.lockAfter = false) :=
  ⟨by decide, run_guard_contention_and_release.2.2.2.2 1 (by decide)⟩

end WifiWizard
